import Mathlib

/-!
Verification of the points ledger and the multi-model generation
orchestrator of the ai-painter backend.

The definitions below are a shallow embedding of
`backend/services/generation_service.py` (class `GenerationService`:
`optimize_prompt`, `generate_image`, `_call_ai_api`, `_extract_image_data`)
and of `backend/services/user_service.py` (`UserService.deduct_points`,
`UserService.add_points`).  External HTTP calls are modelled by outcome
values supplied by the environment; the database session is modelled by
explicit state (the user's point balance and the list of generation
records).  JSON dictionary fields that may be absent are modelled with
`Option`; Python truthiness of `Optional[str]` values (`None` and `""`
are falsy) is modelled by `strTruthy`.
-/

namespace AIPainter

/-- Python truthiness of an `Optional[str]`: `None` and `""` are falsy. -/
def strTruthy : Option String → Bool
  | none => false
  | some s => s ≠ ""

/-- Python `a or b` on `Optional[str]` values. -/
def pyOr (a b : Option String) : Option String :=
  if strTruthy a then a else b

/-- Lifecycle status of a generation record (`status` column). -/
inductive Status
  | processing
  | completed
  | failed
deriving DecidableEq, Repr

/-- `GenerationRequest` from `backend/models/schemas.py`. -/
structure GenerationRequest where
  prompt : String
  enable_optimization : Bool := true
  models : List String
  size : String := "1024x1024"
  output_format : String := "png"
  image_file : Option String := none
  optimizer_model : Option String := none
  system_prompt : Option String := none
deriving DecidableEq, Repr

/-- `ApiConfig` row from `backend/models/database.py` (the fields
`generate_image` reads). -/
structure ApiConfig where
  api_key : String
  api_base_url : String := "https://api.openai.com"
  optimizer_model : Option String := some "gpt-4o-mini"
  system_prompt : Option String := none
  is_active : Bool := true
deriving DecidableEq, Repr

/-- One element of the `data` array of a provider image response; each
field models the presence of the corresponding JSON key. -/
structure ImageItem where
  b64_json : Option String := none
  url : Option String := none
  image_url : Option String := none
deriving DecidableEq, Repr

/-- Result of `_extract_image_data`: the dictionary it returns, which
holds a `url` key or a `b64_json` key. -/
structure ImageData where
  url : Option String := none
  b64_json : Option String := none
deriving DecidableEq, Repr

/-- `GenerationService._extract_image_data`: the `data` field of the
response (missing key and empty list both modelled by `[]`), first item
inspected for `b64_json`, then `url`, then `image_url`. -/
def extractImageData (data : List ImageItem) : Option ImageData :=
  match data with
  | [] => none
  | item :: _ =>
    if item.b64_json.isSome then some { b64_json := item.b64_json }
    else if item.url.isSome then some { url := item.url }
    else if item.image_url.isSome then some { url := item.image_url }
    else none

/-- Environment-supplied outcome of one HTTP image call: either a raised
transport exception or a response with a status code, a parsed `data`
array and (for non-200) a provider error message text. -/
inductive HttpOutcome
  | exn (msg : String)
  | resp (status : Nat) (data : List ImageItem) (errorText : String)
deriving DecidableEq, Repr

/-- The dictionary `_call_ai_api` returns. -/
structure ApiCallResult where
  success : Bool
  image_url : Option String := none
  base64_image : Option String := none
  raw_response : List ImageItem := []
  error : Option String := none
deriving DecidableEq, Repr

/-- `GenerationService._call_ai_api` on a given HTTP outcome. -/
def callAiApi (outcome : HttpOutcome) : ApiCallResult :=
  match outcome with
  | .exn msg => { success := false, error := some ("API call error: " ++ msg) }
  | .resp status data errorText =>
    if status = 200 then
      match extractImageData data with
      | some d =>
        { success := true, image_url := d.url, base64_image := d.b64_json,
          raw_response := data }
      | none => { success := false, error := some "No image data in response" }
    else
      { success := false,
        error := some ("API call failed: " ++ toString status ++ " - " ++ errorText) }

/-- Environment-supplied outcome of the optimizer chat call: a raised
exception, or a response with a status code and the extracted
`choices[0].message.content` string (missing keys give `""`). -/
inductive OptimizerOutcome
  | exn (msg : String)
  | resp (status : Nat) (content : String)
deriving DecidableEq, Repr

/-- `GenerationService.optimize_prompt`: resolve the api key against the
service default, return the original prompt when there is no key, the
call raises, the response is non-200, or the stripped content is empty;
otherwise return the stripped content. -/
def optimizePrompt (defaultApiKey : String) (prompt : String)
    (api_key : Option String) (outcome : OptimizerOutcome) : String :=
  let finalApiKey := if strTruthy api_key then api_key.getD "" else defaultApiKey
  if finalApiKey = "" then prompt
  else
    match outcome with
    | .exn _ => prompt
    | .resp status content =>
      if status = 200 then
        let optimized := content.trim
        if optimized ≠ "" then optimized else prompt
      else prompt

/-- `UserService.deduct_points` on the user's balance: raises (error)
when the balance is below the amount, otherwise decrements. -/
def deductPoints (balance : Int) (points : Int) : Except String Int :=
  if balance < points then .error "Insufficient points"
  else .ok (balance - points)

/-- `UserService.add_points` on the user's balance: unconditional
increment, no validation of the amount. -/
def addPoints (balance : Int) (points : Int) : Int :=
  balance + points

/-- A `Generation` row from `backend/models/database.py`, as written by
`generate_image`.  `completed_at` stores the clock value passed in for
`datetime.utcnow()`; `api_response` stores the parsed raw response. -/
structure Generation where
  user_id : Nat
  prompt : String
  optimized_prompt : Option String
  model : String
  image_url : Option String := none
  base64_image : Option String := none
  points_used : Int
  status : Status
  error_message : Option String := none
  api_response : Option (List ImageItem) := none
  completed_at : Option Nat := none
deriving DecidableEq, Repr

/-- The `Generation(...)` constructor call of `generate_image` (one per
requested model, before any provider call). -/
def initRecord (user_id : Nat) (req : GenerationRequest)
    (optimizedPrompt : String) (model : String) : Generation :=
  { user_id := user_id
    prompt := req.prompt
    optimized_prompt :=
      if optimizedPrompt ≠ req.prompt then some optimizedPrompt else none
    model := model
    points_used := 1
    status := .processing }

/-- All records created and committed by `generate_image` before any
provider call is issued. -/
def initialRecords (user_id : Nat) (req : GenerationRequest)
    (optimizedPrompt : String) : List Generation :=
  req.models.map (initRecord user_id req optimizedPrompt)

/-- The per-record update of `generate_image`'s provider-call loop. -/
def processRecord (g : Generation) (outcome : HttpOutcome) (now : Nat) :
    Generation :=
  let r := callAiApi outcome
  if r.success then
    { g with status := .completed, image_url := r.image_url,
             base64_image := r.base64_image,
             api_response := some r.raw_response,
             completed_at := some now }
  else
    { g with status := .failed,
             error_message := some (r.error.getD "Unknown error") }

/-- The state of the batch after the provider-call loop and before
settlement: each record updated with its own call's outcome. -/
def processedRecords (user_id : Nat) (req : GenerationRequest)
    (optimizedPrompt : String) (outcomes : Nat → HttpOutcome) (now : Nat) :
    List Generation :=
  (initialRecords user_id req optimizedPrompt).enum.map
    (fun p => processRecord p.2 (outcomes p.1) now)

/-- `successful_generations`: the number of records whose status is
`completed`. -/
def successCount (l : List Generation) : Nat :=
  l.countP (fun g => decide (g.status = Status.completed))

/-- `points_to_deduct`: base charge 1, plus 1 when optimization was
requested. -/
def batchCharge (req : GenerationRequest) : Int :=
  1 + (if req.enable_optimization then 1 else 0)

/-- Settlement update of one record when the debit succeeded. -/
def chargeRecord (charge : Int) (g : Generation) : Generation :=
  if g.status = Status.completed then { g with points_used := charge }
  else { g with points_used := 0 }

/-- The batch-level `except` path: mark the record failed with the
raised error's text and zero its points. -/
def failRecord (msg : String) (g : Generation) : Generation :=
  { g with status := Status.failed, error_message := some msg,
           points_used := 0 }

/-- The all-failed path: zero the record's points. -/
def zeroRecord (g : Generation) : Generation :=
  { g with points_used := 0 }

/-- Result of settlement: the final records, the final balance, and the
log of successful debits against the account. -/
structure SettleResult where
  records : List Generation
  balance : Int
  debits : List Int
deriving DecidableEq, Repr

/-- The settlement step of `generate_image`: when at least one record
completed, debit the flat batch charge (a failing debit raises into the
batch-level `except`, which marks every record failed and charges
nothing); when no record completed, zero every record's points and do
not touch the balance. -/
def settle (req : GenerationRequest) (processed : List Generation)
    (balance : Int) : SettleResult :=
  let charge := batchCharge req
  if 0 < successCount processed then
    match deductPoints balance charge with
    | .ok newBalance =>
      { records := processed.map (chargeRecord charge)
        balance := newBalance
        debits := [charge] }
    | .error msg =>
      { records := processed.map (failRecord msg)
        balance := balance
        debits := [] }
  else
    { records := processed.map zeroRecord
      balance := balance
      debits := [] }

/-- HTTP error raised by a precondition failure of `generate_image`. -/
structure HttpError where
  status : Nat
  detail : String
deriving DecidableEq, Repr

/-- Observable result of one `generate_image` call: the raised
precondition error if any, the final records, the final balance, the
log of successful debits, the prompt passed to every provider call, and
how many external calls were made. -/
structure SubmitOutput where
  error : Option HttpError := none
  records : List Generation := []
  balance : Int
  debits : List Int := []
  promptUsed : String := ""
  optimizerCalled : Bool := false
  providerCalls : Nat := 0
deriving DecidableEq, Repr

/-- Resolution of the effective optimizer model (request value overrides
the active config's default, Python `or`). -/
def resolveOptimizerModel (req : GenerationRequest) (cfg : ApiConfig) :
    Option String :=
  pyOr req.optimizer_model cfg.optimizer_model

/-- Resolution of the effective system prompt. -/
def resolveSystemPrompt (req : GenerationRequest) (cfg : ApiConfig) :
    Option String :=
  pyOr req.system_prompt cfg.system_prompt

/-- The guard of the optimization step in `generate_image`. -/
def optimizationEnabled (req : GenerationRequest) (cfg : ApiConfig) : Bool :=
  req.enable_optimization && strTruthy (resolveOptimizerModel req cfg)
    && strTruthy (resolveSystemPrompt req cfg)

/-- The prompt `generate_image` passes to every provider call: the
optimizer's output when the optimization guard holds, the raw prompt
otherwise. -/
def optimizedPromptOf (defaultApiKey : String) (req : GenerationRequest)
    (cfg : ApiConfig) (outcome : OptimizerOutcome) : String :=
  if optimizationEnabled req cfg then
    optimizePrompt defaultApiKey req.prompt (some cfg.api_key) outcome
  else req.prompt

/-- Whether the optimizer HTTP call is actually issued (guard holds and
a non-empty api key resolves inside `optimize_prompt`). -/
def optimizerCalledOf (defaultApiKey : String) (req : GenerationRequest)
    (cfg : ApiConfig) : Bool :=
  optimizationEnabled req cfg &&
    (if cfg.api_key ≠ "" then cfg.api_key else defaultApiKey) ≠ ""

/-- `GenerationService.generate_image`: precondition checks (balance at
least 1, an active config exists), optional prompt optimization, record
creation, per-model provider calls, settlement. -/
def generateImage (defaultApiKey : String) (balance : Int)
    (cfg : Option ApiConfig) (user_id : Nat) (req : GenerationRequest)
    (optOutcome : OptimizerOutcome) (outcomes : Nat → HttpOutcome)
    (now : Nat) : SubmitOutput :=
  if balance < 1 then
    { error := some ⟨400, "积分不足"⟩, balance := balance }
  else
    match cfg with
    | none =>
      { error := some ⟨500, "系统API配置未设置，请联系管理员"⟩, balance := balance }
    | some apiConfig =>
      let optimizedPrompt := optimizedPromptOf defaultApiKey req apiConfig optOutcome
      let processed := processedRecords user_id req optimizedPrompt outcomes now
      let s := settle req processed balance
      { error := none
        records := s.records
        balance := s.balance
        debits := s.debits
        promptUsed := optimizedPrompt
        optimizerCalled := optimizerCalledOf defaultApiKey req apiConfig
        providerCalls := req.models.length }

/-- Ledger operations (`UserService.deduct_points` / `add_points`). -/
inductive LedgerOp
  | debit (amount : Int)
  | credit (amount : Int)
deriving DecidableEq, Repr

/-- Effect of one ledger operation on the balance; a failing debit
raises and leaves the balance unchanged. -/
def applyOp (balance : Int) : LedgerOp → Int
  | .debit a =>
    match deductPoints balance a with
    | .ok b => b
    | .error _ => balance
  | .credit a => addPoints balance a

/-- Effect of a sequence of ledger operations on the balance. -/
def applyOps (balance : Int) (ops : List LedgerOp) : Int :=
  ops.foldl applyOp balance

/-! ### Concrete fixtures used by witnesses and counterexamples -/

/-- A two-model request without optimization. -/
def reqNoOpt : GenerationRequest :=
  { prompt := "cat", enable_optimization := false, models := ["m1", "m2"] }

/-- A one-model request with optimization requested. -/
def reqOpt : GenerationRequest :=
  { prompt := "cat", enable_optimization := true, models := ["m1"] }

/-- An active config with no optimizer model and no system prompt, so
the optimization guard is off. -/
def cfgPlain : ApiConfig :=
  { api_key := "k", api_base_url := "b", optimizer_model := none,
    system_prompt := none }

/-- Every provider call returns HTTP 200 with a `url` payload. -/
def outGood : Nat → HttpOutcome :=
  fun _ => HttpOutcome.resp 200 [{ url := some "http://img" }] ""

/-- Every provider call returns HTTP 500. -/
def outBad : Nat → HttpOutcome :=
  fun _ => HttpOutcome.resp 500 [] "boom"

/-! ### Helper lemmas -/

theorem chargeRecord_status (c : Int) (g : Generation) :
    (chargeRecord c g).status = g.status := by
  unfold chargeRecord
  split <;> rfl

theorem chargeRecord_optimized_prompt (c : Int) (g : Generation) :
    (chargeRecord c g).optimized_prompt = g.optimized_prompt := by
  unfold chargeRecord
  split <;> rfl

theorem chargeRecord_points (c : Int) (g : Generation) :
    (chargeRecord c g).points_used =
      if g.status = Status.completed then c else 0 := by
  unfold chargeRecord
  by_cases h : g.status = Status.completed <;> simp [h]

theorem failRecord_status (m : String) (g : Generation) :
    (failRecord m g).status = Status.failed := rfl

theorem failRecord_points (m : String) (g : Generation) :
    (failRecord m g).points_used = 0 := rfl

theorem failRecord_optimized_prompt (m : String) (g : Generation) :
    (failRecord m g).optimized_prompt = g.optimized_prompt := rfl

theorem zeroRecord_status (g : Generation) :
    (zeroRecord g).status = g.status := rfl

theorem zeroRecord_points (g : Generation) :
    (zeroRecord g).points_used = 0 := rfl

theorem zeroRecord_optimized_prompt (g : Generation) :
    (zeroRecord g).optimized_prompt = g.optimized_prompt := rfl

theorem processRecord_status_dichotomy (g : Generation) (o : HttpOutcome)
    (now : Nat) :
    (processRecord g o now).status = Status.completed ∨
      (processRecord g o now).status = Status.failed := by
  by_cases h : (callAiApi o).success <;> simp [processRecord, h]

theorem processRecord_optimized_prompt (g : Generation) (o : HttpOutcome)
    (now : Nat) :
    (processRecord g o now).optimized_prompt = g.optimized_prompt := by
  by_cases h : (callAiApi o).success <;> simp [processRecord, h]

theorem processRecord_points (g : Generation) (o : HttpOutcome) (now : Nat) :
    (processRecord g o now).points_used = g.points_used := by
  by_cases h : (callAiApi o).success <;> simp [processRecord, h]

theorem successCount_pos_iff {l : List Generation} :
    0 < successCount l ↔ ∃ g ∈ l, g.status = Status.completed := by
  simp [successCount, List.countP_pos_iff]

theorem successCount_eq_zero_iff {l : List Generation} :
    successCount l = 0 ↔ ∀ g ∈ l, ¬ g.status = Status.completed := by
  simp [successCount, List.countP_eq_zero]

theorem settle_of_pos_ok {req : GenerationRequest}
    {processed : List Generation} {balance : Int}
    (h : 0 < successCount processed) (hb : ¬ balance < batchCharge req) :
    settle req processed balance =
      { records := processed.map (chargeRecord (batchCharge req))
        balance := balance - batchCharge req
        debits := [batchCharge req] } := by
  simp only [settle, deductPoints, if_pos h, if_neg hb]

theorem settle_of_pos_insufficient {req : GenerationRequest}
    {processed : List Generation} {balance : Int}
    (h : 0 < successCount processed) (hb : balance < batchCharge req) :
    settle req processed balance =
      { records := processed.map (failRecord "Insufficient points")
        balance := balance
        debits := [] } := by
  simp only [settle, deductPoints, if_pos h, if_pos hb]

theorem settle_of_zero {req : GenerationRequest}
    {processed : List Generation} {balance : Int}
    (h : successCount processed = 0) :
    settle req processed balance =
      { records := processed.map zeroRecord
        balance := balance
        debits := [] } := by
  have h' : ¬ 0 < successCount processed := by omega
  simp only [settle, if_neg h']

theorem mem_initialRecords {uid : Nat} {req : GenerationRequest}
    {optPrompt : String} {g : Generation}
    (h : g ∈ initialRecords uid req optPrompt) :
    ∃ m ∈ req.models, g = initRecord uid req optPrompt m := by
  simp only [initialRecords, List.mem_map] at h
  obtain ⟨m, hm, rfl⟩ := h
  exact ⟨m, hm, rfl⟩

theorem mem_processedRecords {uid : Nat} {req : GenerationRequest}
    {optPrompt : String} {outs : Nat → HttpOutcome} {now : Nat}
    {g : Generation}
    (h : g ∈ processedRecords uid req optPrompt outs now) :
    ∃ m ∈ req.models, ∃ o,
      g = processRecord (initRecord uid req optPrompt m) o now := by
  simp only [processedRecords, List.mem_map] at h
  obtain ⟨p, hp, rfl⟩ := h
  have hmem : p.2 ∈ initialRecords uid req optPrompt := by
    have := List.mem_enum_iff_getElem?.mp hp
    exact List.getElem?_mem this
  obtain ⟨m, hm, hinit⟩ := mem_initialRecords hmem
  exact ⟨m, hm, outs p.1, by rw [hinit]⟩

theorem processedRecords_shape {uid : Nat} {req : GenerationRequest}
    {optPrompt : String} {outs : Nat → HttpOutcome} {now : Nat} :
    ∀ g ∈ processedRecords uid req optPrompt outs now,
      (g.status = Status.completed ∨ g.status = Status.failed) ∧
      g.optimized_prompt =
        (if optPrompt ≠ req.prompt then some optPrompt else none) ∧
      g.points_used = 1 := by
  intro g hg
  obtain ⟨m, _, o, rfl⟩ := mem_processedRecords hg
  refine ⟨processRecord_status_dichotomy _ _ _, ?_, ?_⟩
  · rw [processRecord_optimized_prompt]
    rfl
  · rw [processRecord_points]
    rfl

theorem generateImage_records {dk : String} {balance : Int} {cfg : ApiConfig}
    {uid : Nat} {req : GenerationRequest} {oo : OptimizerOutcome}
    {outs : Nat → HttpOutcome} {now : Nat} (hb : ¬ balance < 1) :
    (generateImage dk balance (some cfg) uid req oo outs now).records =
      (settle req
        (processedRecords uid req (optimizedPromptOf dk req cfg oo) outs now)
        balance).records := by
  simp [generateImage, hb]

theorem generateImage_debits {dk : String} {balance : Int} {cfg : ApiConfig}
    {uid : Nat} {req : GenerationRequest} {oo : OptimizerOutcome}
    {outs : Nat → HttpOutcome} {now : Nat} (hb : ¬ balance < 1) :
    (generateImage dk balance (some cfg) uid req oo outs now).debits =
      (settle req
        (processedRecords uid req (optimizedPromptOf dk req cfg oo) outs now)
        balance).debits := by
  simp [generateImage, hb]

theorem generateImage_balance {dk : String} {balance : Int} {cfg : ApiConfig}
    {uid : Nat} {req : GenerationRequest} {oo : OptimizerOutcome}
    {outs : Nat → HttpOutcome} {now : Nat} (hb : ¬ balance < 1) :
    (generateImage dk balance (some cfg) uid req oo outs now).balance =
      (settle req
        (processedRecords uid req (optimizedPromptOf dk req cfg oo) outs now)
        balance).balance := by
  simp [generateImage, hb]

theorem generateImage_error_none {dk : String} {balance : Int}
    {cfg : ApiConfig} {uid : Nat} {req : GenerationRequest}
    {oo : OptimizerOutcome} {outs : Nat → HttpOutcome} {now : Nat}
    (hb : ¬ balance < 1) :
    (generateImage dk balance (some cfg) uid req oo outs now).error = none := by
  simp [generateImage, hb]

theorem generateImage_promptUsed {dk : String} {balance : Int}
    {cfg : ApiConfig} {uid : Nat} {req : GenerationRequest}
    {oo : OptimizerOutcome} {outs : Nat → HttpOutcome} {now : Nat}
    (hb : ¬ balance < 1) :
    (generateImage dk balance (some cfg) uid req oo outs now).promptUsed =
      optimizedPromptOf dk req cfg oo := by
  simp [generateImage, hb]

theorem generateImage_providerCalls {dk : String} {balance : Int}
    {cfg : ApiConfig} {uid : Nat} {req : GenerationRequest}
    {oo : OptimizerOutcome} {outs : Nat → HttpOutcome} {now : Nat}
    (hb : ¬ balance < 1) :
    (generateImage dk balance (some cfg) uid req oo outs now).providerCalls =
      req.models.length := by
  simp [generateImage, hb]

theorem applyOp_nonneg {balance : Int} (op : LedgerOp) (hb : 0 ≤ balance)
    (hc : ∀ a, op = LedgerOp.credit a → 0 ≤ a) : 0 ≤ applyOp balance op := by
  cases op with
  | debit a =>
    simp only [applyOp, deductPoints]
    by_cases h : balance < a
    · simpa [h] using hb
    · simp only [if_neg h]
      omega
  | credit a =>
    have := hc a rfl
    simp only [applyOp, addPoints]
    omega

theorem applyOps_nonneg {balance : Int} {ops : List LedgerOp}
    (hb : 0 ≤ balance)
    (hc : ∀ a, LedgerOp.credit a ∈ ops → 0 ≤ a) :
    0 ≤ applyOps balance ops := by
  induction ops generalizing balance with
  | nil => simpa [applyOps] using hb
  | cons op rest ih =>
    have h1 : 0 ≤ applyOp balance op :=
      applyOp_nonneg op hb (fun a ha => hc a (ha ▸ List.mem_cons_self op rest))
    exact ih h1 (fun a ha => hc a (List.mem_cons_of_mem _ ha))

theorem optimizePrompt_fallback {dk prompt : String} {key : Option String}
    {oo : OptimizerOutcome}
    (hfall : ∀ st c, oo = OptimizerOutcome.resp st c → st = 200 →
      c.trim = "") :
    optimizePrompt dk prompt key oo = prompt := by
  unfold optimizePrompt
  by_cases hk : (if strTruthy key then key.getD "" else dk) = ""
  · simp [hk]
  · cases oo with
    | exn m => simp [hk]
    | resp st c =>
      by_cases hst : st = 200
      · have hc := hfall st c rfl hst
        simp [hk, hst, hc]
      · simp [hk, hst]

theorem mem_settle_records {req : GenerationRequest}
    {processed : List Generation} {balance : Int} {g : Generation}
    (h : g ∈ (settle req processed balance).records) :
    ∃ p ∈ processed, g.optimized_prompt = p.optimized_prompt := by
  by_cases hpos : 0 < successCount processed
  · by_cases hlt : balance < batchCharge req
    · rw [settle_of_pos_insufficient hpos hlt] at h
      simp only [List.mem_map] at h
      obtain ⟨p, hp, rfl⟩ := h
      exact ⟨p, hp, failRecord_optimized_prompt _ _⟩
    · rw [settle_of_pos_ok hpos hlt] at h
      simp only [List.mem_map] at h
      obtain ⟨p, hp, rfl⟩ := h
      exact ⟨p, hp, chargeRecord_optimized_prompt _ _⟩
  · have hz : successCount processed = 0 := by omega
    rw [settle_of_zero hz] at h
    simp only [List.mem_map] at h
    obtain ⟨p, hp, rfl⟩ := h
    exact ⟨p, hp, zeroRecord_optimized_prompt _⟩

theorem records_optimized_prompt_none {dk : String} {balance : Int}
    {cfg : ApiConfig} {uid : Nat} {req : GenerationRequest}
    {oo : OptimizerOutcome} {outs : Nat → HttpOutcome} {now : Nat}
    (hb : ¬ balance < 1)
    (hopt : optimizedPromptOf dk req cfg oo = req.prompt) :
    ∀ g ∈ (generateImage dk balance (some cfg) uid req oo outs now).records,
      g.optimized_prompt = none := by
  intro g hg
  rw [generateImage_records hb] at hg
  obtain ⟨p, hp, hpe⟩ := mem_settle_records hg
  rw [hpe, (processedRecords_shape p hp).2.1, hopt]
  simp

/-! ### Claim theorems -/

/-- C1: in every submit batch in which at least one record ends
`completed`, exactly one debit happened and its amount is 1 when
`enable_optimization` is false and 2 when it is true, independent of the
number of models requested and of how many succeeded; each `completed`
record's `points_used` equals that same charge and each `failed`
record's `points_used` is 0. -/
theorem C1_flat_batch_charge (dk : String) (balance : Int) (cfg : ApiConfig)
    (uid : Nat) (req : GenerationRequest) (oo : OptimizerOutcome)
    (outs : Nat → HttpOutcome) (now : Nat)
    (h : ∃ g ∈ (generateImage dk balance (some cfg) uid req oo
        outs now).records, g.status = Status.completed) :
    (generateImage dk balance (some cfg) uid req oo outs now).debits
        = [if req.enable_optimization then 2 else 1] ∧
    ∀ g ∈ (generateImage dk balance (some cfg) uid req oo outs now).records,
      (g.status = Status.completed →
        g.points_used = (if req.enable_optimization then 2 else 1)) ∧
      (g.status = Status.failed → g.points_used = 0) := by
  have hcharge : batchCharge req
      = (if req.enable_optimization then 2 else 1) := by
    by_cases ho : req.enable_optimization <;> simp [batchCharge, ho]
  by_cases hb : balance < 1
  · simp [generateImage, hb] at h
  · rw [generateImage_records hb] at h
    rw [generateImage_debits hb, generateImage_records hb, ← hcharge]
    by_cases hpos : 0 < successCount
        (processedRecords uid req (optimizedPromptOf dk req cfg oo) outs now)
    · by_cases hlt : balance < batchCharge req
      · exfalso
        rw [settle_of_pos_insufficient hpos hlt] at h
        obtain ⟨g, hg, hst⟩ := h
        simp only [List.mem_map] at hg
        obtain ⟨p, _, rfl⟩ := hg
        rw [failRecord_status] at hst
        exact absurd hst (by simp)
      · rw [settle_of_pos_ok hpos hlt]
        refine ⟨rfl, ?_⟩
        intro g hg
        simp only [List.mem_map] at hg
        obtain ⟨p, hp, rfl⟩ := hg
        rw [chargeRecord_status, chargeRecord_points]
        constructor
        · intro hst
          rw [if_pos hst]
        · intro hst
          rw [if_neg (by rw [hst]; simp)]
    · exfalso
      have hz : successCount
          (processedRecords uid req (optimizedPromptOf dk req cfg oo)
            outs now) = 0 := by omega
      rw [settle_of_zero hz] at h
      obtain ⟨g, hg, hst⟩ := h
      simp only [List.mem_map] at hg
      obtain ⟨p, hp, rfl⟩ := hg
      rw [zeroRecord_status] at hst
      exact successCount_eq_zero_iff.mp hz p hp hst

/-- Witness for C1 with two models, no optimization, both provider
calls succeeding: the debit log is exactly `[1]`. -/
theorem C1_flat_batch_charge_witness :
    (∃ g ∈ (generateImage "" 5 (some cfgPlain) 1 reqNoOpt
        (OptimizerOutcome.exn "e") outGood 0).records,
      g.status = Status.completed) ∧
    (generateImage "" 5 (some cfgPlain) 1 reqNoOpt (OptimizerOutcome.exn "e")
        outGood 0).debits = [1] :=
  ⟨by decide, by
    have h := C1_flat_batch_charge "" 5 cfgPlain 1 reqNoOpt
      (OptimizerOutcome.exn "e") outGood 0 (by decide)
    simpa [reqNoOpt] using h.1⟩

/-- C2: for every submit call the account is debited at most once;
exactly once when at least one record ends `completed` and zero times
otherwise; and when every record ends `failed` the balance is unchanged
and every record's `points_used` is 0. -/
theorem C2_settlement_atomicity (dk : String) (balance : Int)
    (cfg : Option ApiConfig) (uid : Nat) (req : GenerationRequest)
    (oo : OptimizerOutcome) (outs : Nat → HttpOutcome) (now : Nat) :
    (generateImage dk balance cfg uid req oo outs now).debits.length ≤ 1 ∧
    ((∃ g ∈ (generateImage dk balance cfg uid req oo outs now).records,
        g.status = Status.completed) ↔
      (generateImage dk balance cfg uid req oo outs now).debits.length
        = 1) ∧
    ((∀ g ∈ (generateImage dk balance cfg uid req oo outs now).records,
        g.status = Status.failed) →
      (generateImage dk balance cfg uid req oo outs now).balance = balance ∧
      ∀ g ∈ (generateImage dk balance cfg uid req oo outs now).records,
        g.points_used = 0) := by
  by_cases hb : balance < 1
  · simp [generateImage, hb]
  · cases cfg with
    | none => simp [generateImage, hb]
    | some apiConfig =>
      rw [generateImage_debits hb, generateImage_records hb,
        generateImage_balance hb]
      by_cases hpos : 0 < successCount (processedRecords uid req
          (optimizedPromptOf dk req apiConfig oo) outs now)
      · by_cases hlt : balance < batchCharge req
        · rw [settle_of_pos_insufficient hpos hlt]
          refine ⟨by simp, ?_, ?_⟩
          · constructor
            · intro h
              exfalso
              obtain ⟨g, hg, hst⟩ := h
              simp only [List.mem_map] at hg
              obtain ⟨p, _, rfl⟩ := hg
              rw [failRecord_status] at hst
              exact absurd hst (by simp)
            · intro h
              simp at h
          · intro _
            refine ⟨rfl, ?_⟩
            intro g hg
            simp only [List.mem_map] at hg
            obtain ⟨p, _, rfl⟩ := hg
            exact failRecord_points _ _
        · rw [settle_of_pos_ok hpos hlt]
          obtain ⟨p, hp, hps⟩ := successCount_pos_iff.mp hpos
          refine ⟨by simp, ?_, ?_⟩
          · constructor
            · intro _
              rfl
            · intro _
              refine ⟨chargeRecord (batchCharge req) p, ?_, ?_⟩
              · exact List.mem_map_of_mem _ hp
              · rw [chargeRecord_status]
                exact hps
          · intro hall
            exfalso
            have := hall (chargeRecord (batchCharge req) p)
              (List.mem_map_of_mem _ hp)
            rw [chargeRecord_status, hps] at this
            exact absurd this (by simp)
      · have hz : successCount (processedRecords uid req
            (optimizedPromptOf dk req apiConfig oo) outs now) = 0 := by
          omega
        rw [settle_of_zero hz]
        refine ⟨by simp, ?_, ?_⟩
        · constructor
          · intro h
            exfalso
            obtain ⟨g, hg, hst⟩ := h
            simp only [List.mem_map] at hg
            obtain ⟨p, hp, rfl⟩ := hg
            rw [zeroRecord_status] at hst
            exact successCount_eq_zero_iff.mp hz p hp hst
          · intro h
            simp at h
        · intro _
          refine ⟨rfl, ?_⟩
          intro g hg
          simp only [List.mem_map] at hg
          obtain ⟨p, _, rfl⟩ := hg
          exact zeroRecord_points _

/-- Witness for C2: with every provider call failing, the balance is
unchanged and every record reports zero points. -/
theorem C2_settlement_atomicity_witness :
    (generateImage "" 5 (some cfgPlain) 1 reqNoOpt (OptimizerOutcome.exn "e")
        outBad 0).balance = 5 ∧
    ∀ g ∈ (generateImage "" 5 (some cfgPlain) 1 reqNoOpt
        (OptimizerOutcome.exn "e") outBad 0).records, g.points_used = 0 :=
  (C2_settlement_atomicity "" 5 (some cfgPlain) 1 reqNoOpt
    (OptimizerOutcome.exn "e") outBad 0).2.2 (by decide)

/-- C3, counterexample: a record freshly created (and persisted) by
submit carries `points_used = 1`, not 0, before settlement runs. -/
theorem C3_counterexample :
    ∃ g ∈ initialRecords 1 reqNoOpt "cat", g.points_used ≠ 0 := by decide

/-- C3, amended: every record created by submit carries
`points_used = 1` (the column default placeholder) from creation,
through the provider-call phase, until settlement; settlement then sets
it, and a record that ends `failed` ends with `points_used = 0`. -/
theorem C3_points_lifecycle (dk : String) (balance : Int) (cfg : ApiConfig)
    (uid : Nat) (req : GenerationRequest) (oo : OptimizerOutcome)
    (outs : Nat → HttpOutcome) (now : Nat) (optPrompt : String) :
    (∀ g ∈ initialRecords uid req optPrompt, g.points_used = 1) ∧
    (∀ g ∈ processedRecords uid req optPrompt outs now,
      g.points_used = 1) ∧
    (∀ g ∈ (generateImage dk balance (some cfg) uid req oo outs now).records,
      g.status = Status.failed → g.points_used = 0) := by
  refine ⟨?_, ?_, ?_⟩
  · intro g hg
    obtain ⟨m, _, rfl⟩ := mem_initialRecords hg
    rfl
  · intro g hg
    exact (processedRecords_shape g hg).2.2
  · intro g hg hst
    by_cases hb : balance < 1
    · simp [generateImage, hb] at hg
    · rw [generateImage_records hb] at hg
      by_cases hpos : 0 < successCount (processedRecords uid req
          (optimizedPromptOf dk req cfg oo) outs now)
      · by_cases hlt : balance < batchCharge req
        · rw [settle_of_pos_insufficient hpos hlt] at hg
          simp only [List.mem_map] at hg
          obtain ⟨p, _, rfl⟩ := hg
          exact failRecord_points _ _
        · rw [settle_of_pos_ok hpos hlt] at hg
          simp only [List.mem_map] at hg
          obtain ⟨p, _, rfl⟩ := hg
          rw [chargeRecord_status] at hst
          rw [chargeRecord_points, if_neg (by rw [hst]; simp)]
      · have hz : successCount (processedRecords uid req
            (optimizedPromptOf dk req cfg oo) outs now) = 0 := by omega
        rw [settle_of_zero hz] at hg
        simp only [List.mem_map] at hg
        obtain ⟨p, _, rfl⟩ := hg
        exact zeroRecord_points _

/-- Witness for C3's amended theorem: a concrete fresh record carries
`points_used = 1`, and in an all-failed batch every failed record ends
with 0 points. -/
theorem C3_points_lifecycle_witness :
    (initRecord 1 reqNoOpt "cat" "m1").points_used = 1 ∧
    ∀ g ∈ (generateImage "" 5 (some cfgPlain) 1 reqNoOpt
        (OptimizerOutcome.exn "e") outBad 0).records,
      g.status = Status.failed → g.points_used = 0 :=
  ⟨(C3_points_lifecycle "" 5 cfgPlain 1 reqNoOpt (OptimizerOutcome.exn "e")
      outBad 0 "cat").1 _ (by decide),
   (C3_points_lifecycle "" 5 cfgPlain 1 reqNoOpt (OptimizerOutcome.exn "e")
      outBad 0 "cat").2.2⟩

/-- C6, counterexample: with balance 1 and optimization requested, a
record that completed in the provider-call phase is later re-marked
`failed` by the batch-level error path when the settlement debit of 2
fails, so `completed` is not terminal. -/
theorem C6_counterexample :
    (processedRecords 1 reqOpt "cat" outGood 7).map Generation.status
        = [Status.completed] ∧
    (generateImage "" 1 (some cfgPlain) 1 reqOpt (OptimizerOutcome.exn "e")
        outGood 7).records.map Generation.status = [Status.failed] := by
  decide

/-- C6, amended: records start `processing`, leave it only for
`completed` or `failed` during the provider-call phase, and settlement
preserves every record's status — except in the batch-level error path
(the settlement debit fails), where every record, including completed
ones, is re-marked `failed`. -/
theorem C6_status_lifecycle (uid : Nat) (req : GenerationRequest)
    (optPrompt : String) (outs : Nat → HttpOutcome) (now : Nat)
    (balance : Int) :
    (∀ g ∈ initialRecords uid req optPrompt,
      g.status = Status.processing) ∧
    (∀ g ∈ processedRecords uid req optPrompt outs now,
      g.status = Status.completed ∨ g.status = Status.failed) ∧
    (¬ (0 < successCount (processedRecords uid req optPrompt outs now) ∧
        balance < batchCharge req) →
      (settle req (processedRecords uid req optPrompt outs now)
          balance).records.map Generation.status
        = (processedRecords uid req optPrompt outs now).map
            Generation.status) ∧
    ((0 < successCount (processedRecords uid req optPrompt outs now) ∧
        balance < batchCharge req) →
      ∀ g ∈ (settle req (processedRecords uid req optPrompt outs now)
          balance).records, g.status = Status.failed) := by
  refine ⟨?_, ?_, ?_, ?_⟩
  · intro g hg
    obtain ⟨m, _, rfl⟩ := mem_initialRecords hg
    rfl
  · intro g hg
    exact (processedRecords_shape g hg).1
  · intro hn
    by_cases hpos : 0 < successCount
        (processedRecords uid req optPrompt outs now)
    · have hlt : ¬ balance < batchCharge req := fun hlt => hn ⟨hpos, hlt⟩
      rw [settle_of_pos_ok hpos hlt]
      simp [List.map_map, Function.comp, chargeRecord_status]
    · have hz : successCount
          (processedRecords uid req optPrompt outs now) = 0 := by omega
      rw [settle_of_zero hz]
      simp [List.map_map, Function.comp, zeroRecord_status]
  · intro hcond g hg
    rw [settle_of_pos_insufficient hcond.1 hcond.2] at hg
    simp only [List.mem_map] at hg
    obtain ⟨p, _, rfl⟩ := hg
    exact failRecord_status _ _

/-- Witness for C6's amended theorem: all provider calls fail, so
settlement preserves every status. -/
theorem C6_status_lifecycle_witness :
    (settle reqNoOpt (processedRecords 1 reqNoOpt "cat" outBad 0)
        5).records.map Generation.status
      = (processedRecords 1 reqNoOpt "cat" outBad 0).map
          Generation.status :=
  (C6_status_lifecycle 1 reqNoOpt "cat" outBad 0 5).2.2.1 (by decide)

/-- An active config with an optimizer model and a system prompt, so
the optimization guard is on. -/
def cfgOpt : ApiConfig :=
  { api_key := "k", api_base_url := "b", optimizer_model := some "om",
    system_prompt := some "sp" }

/-- C8: when the optimizer call raises, returns non-200, or returns an
empty (stripped) result, `optimize_prompt` falls back to the original
prompt; generation then uses that original prompt for every one of the
per-model provider calls, none of which is skipped; and whenever the
prompt used equals the original prompt, every created record stores no
optimized-prompt value. -/
theorem C8_optimizer_fallback (dk : String) (balance : Int)
    (cfg : ApiConfig) (uid : Nat) (req : GenerationRequest)
    (oo : OptimizerOutcome) (outs : Nat → HttpOutcome) (now : Nat)
    (hb : ¬ balance < 1)
    (hfall : ∀ st c, oo = OptimizerOutcome.resp st c → st = 200 →
      c.trim = "") :
    (generateImage dk balance (some cfg) uid req oo outs now).promptUsed
        = req.prompt ∧
    (generateImage dk balance (some cfg) uid req oo outs now).providerCalls
        = req.models.length ∧
    (∀ g ∈ (generateImage dk balance (some cfg) uid req oo outs now).records,
      g.optimized_prompt = none) ∧
    (∀ oo2 : OptimizerOutcome, optimizedPromptOf dk req cfg oo2 = req.prompt →
      ∀ g ∈ (generateImage dk balance (some cfg) uid req oo2
          outs now).records, g.optimized_prompt = none) := by
  have hopt : optimizedPromptOf dk req cfg oo = req.prompt := by
    by_cases hg : optimizationEnabled req cfg <;>
      simp [optimizedPromptOf, hg, optimizePrompt_fallback hfall]
  refine ⟨?_, generateImage_providerCalls hb, ?_, ?_⟩
  · rw [generateImage_promptUsed hb, hopt]
  · exact records_optimized_prompt_none hb hopt
  · intro oo2 h2
    exact records_optimized_prompt_none hb h2

/-- Witness for C8: optimizer answers HTTP 500, the prompt used by the
provider calls is the raw prompt and both calls are made. -/
theorem C8_optimizer_fallback_witness :
    (generateImage "k" 5 (some cfgOpt) 1 reqNoOpt
        (OptimizerOutcome.resp 500 "ignored") outGood 0).promptUsed
      = reqNoOpt.prompt ∧
    (generateImage "k" 5 (some cfgOpt) 1 reqNoOpt
        (OptimizerOutcome.resp 500 "ignored") outGood 0).providerCalls
      = reqNoOpt.models.length :=
  ⟨(C8_optimizer_fallback "k" 5 cfgOpt 1 reqNoOpt
      (OptimizerOutcome.resp 500 "ignored") outGood 0 (by decide)
      (by intro st c heq h200; injection heq with h1 h2; omega)).1,
   (C8_optimizer_fallback "k" 5 cfgOpt 1 reqNoOpt
      (OptimizerOutcome.resp 500 "ignored") outGood 0 (by decide)
      (by intro st c heq h200; injection heq with h1 h2; omega)).2.1⟩

theorem extractImageData_exclusive {data : List ImageItem} {d : ImageData}
    (h : extractImageData data = some d) :
    (d.url.isSome ∧ d.b64_json = none) ∨
      (d.url = none ∧ d.b64_json.isSome) := by
  cases data with
  | nil => simp [extractImageData] at h
  | cons item rest =>
    simp only [extractImageData] at h
    by_cases h1 : item.b64_json.isSome
    · rw [if_pos h1] at h
      cases Option.some.inj h
      exact Or.inr ⟨rfl, h1⟩
    · rw [if_neg h1] at h
      by_cases h2 : item.url.isSome
      · rw [if_pos h2] at h
        cases Option.some.inj h
        exact Or.inl ⟨h2, rfl⟩
      · rw [if_neg h2] at h
        by_cases h3 : item.image_url.isSome
        · rw [if_pos h3] at h
          cases Option.some.inj h
          exact Or.inl ⟨h3, rfl⟩
        · rw [if_neg h3] at h
          exact absurd h (by simp)

/-- C9: `_extract_image_data` tries `b64_json`, then `url`, then
`image_url`, in that order, and the first present field wins; and on an
HTTP 200 response whose payload is extractable, the record is marked
`completed` with a completion timestamp and exactly one of
{image URL, inline base64 bytes} populated. -/
theorem C9_extraction_priority (item : ImageItem) (rest : List ImageItem)
    (g : Generation) (data : List ImageItem) (errText : String) (now : Nat)
    (hx : (extractImageData data).isSome) :
    (item.b64_json.isSome →
      extractImageData (item :: rest)
        = some { b64_json := item.b64_json, url := none }) ∧
    (item.b64_json = none → item.url.isSome →
      extractImageData (item :: rest)
        = some { url := item.url, b64_json := none }) ∧
    (item.b64_json = none → item.url = none → item.image_url.isSome →
      extractImageData (item :: rest)
        = some { url := item.image_url, b64_json := none }) ∧
    (processRecord g (HttpOutcome.resp 200 data errText) now).status
        = Status.completed ∧
    (processRecord g (HttpOutcome.resp 200 data errText) now).completed_at
        = some now ∧
    (((processRecord g (HttpOutcome.resp 200 data errText)
          now).image_url.isSome ∧
        (processRecord g (HttpOutcome.resp 200 data errText)
          now).base64_image = none) ∨
      ((processRecord g (HttpOutcome.resp 200 data errText)
          now).image_url = none ∧
        (processRecord g (HttpOutcome.resp 200 data errText)
          now).base64_image.isSome)) := by
  obtain ⟨d, hd⟩ := Option.isSome_iff_exists.mp hx
  have hc : callAiApi (HttpOutcome.resp 200 data errText)
      = { success := true, image_url := d.url, base64_image := d.b64_json,
          raw_response := data } := by
    simp [callAiApi, hd]
  refine ⟨?_, ?_, ?_, ?_, ?_, ?_⟩
  · intro h1
    simp [extractImageData, h1]
  · intro h1 h2
    simp [extractImageData, h1, h2]
  · intro h1 h2 h3
    simp [extractImageData, h1, h2, h3]
  · simp [processRecord, hc]
  · simp [processRecord, hc]
  · have hex := extractImageData_exclusive hd
    rcases hex with ⟨hu, hbj⟩ | ⟨hu, hbj⟩
    · exact Or.inl ⟨by simp [processRecord, hc, hu], by
        simp [processRecord, hc, hbj]⟩
    · exact Or.inr ⟨by simp [processRecord, hc, hu], by
        simp [processRecord, hc, hbj]⟩

/-- Witness for C9 on an item carrying both `b64_json` and `url`: the
base64 field wins and the record completes. -/
theorem C9_extraction_priority_witness :
    extractImageData [{ b64_json := some "B", url := some "U" }]
        = some { b64_json := some "B", url := none } ∧
    (processRecord (initRecord 1 reqNoOpt "cat" "m1")
        (HttpOutcome.resp 200 [{ b64_json := some "B", url := some "U" }]
          "") 3).status = Status.completed :=
  ⟨(C9_extraction_priority { b64_json := some "B", url := some "U" } []
      (initRecord 1 reqNoOpt "cat" "m1")
      [{ b64_json := some "B", url := some "U" }] "" 3 (by decide)).1
      (by decide),
   (C9_extraction_priority { b64_json := some "B", url := some "U" } []
      (initRecord 1 reqNoOpt "cat" "m1")
      [{ b64_json := some "B", url := some "U" }] "" 3
      (by decide)).2.2.2.1⟩

/-- C10: with balance exactly 1 and optimization requested, the
precondition check passes (no HTTP error is raised), but when at least
one provider call succeeds the settlement debit of 2 fails inside the
batch's error path: every returned record is `failed` with
`points_used = 0`, the balance stays 1, and nothing is debited — so the
successful provider outputs are returned in no `completed` record and
uncharged. -/
theorem C10_settlement_debit_failure (dk : String) (cfg : ApiConfig)
    (uid : Nat) (req : GenerationRequest) (oo : OptimizerOutcome)
    (outs : Nat → HttpOutcome) (now : Nat)
    (hopt : req.enable_optimization = true)
    (hsucc : 0 < successCount
      (processedRecords uid req (optimizedPromptOf dk req cfg oo)
        outs now)) :
    (generateImage dk 1 (some cfg) uid req oo outs now).error = none ∧
    (∀ g ∈ (generateImage dk 1 (some cfg) uid req oo outs now).records,
      g.status = Status.failed ∧ g.points_used = 0) ∧
    (generateImage dk 1 (some cfg) uid req oo outs now).balance = 1 ∧
    (generateImage dk 1 (some cfg) uid req oo outs now).debits = [] := by
  have hb : ¬ (1 : Int) < 1 := by omega
  have hch : batchCharge req = 2 := by simp [batchCharge, hopt]
  have hlt : (1 : Int) < batchCharge req := by omega
  refine ⟨generateImage_error_none hb, ?_, ?_, ?_⟩
  · intro g hg
    rw [generateImage_records hb,
      settle_of_pos_insufficient hsucc hlt] at hg
    simp only [List.mem_map] at hg
    obtain ⟨p, _, rfl⟩ := hg
    exact ⟨failRecord_status _ _, failRecord_points _ _⟩
  · rw [generateImage_balance hb, settle_of_pos_insufficient hsucc hlt]
  · rw [generateImage_debits hb, settle_of_pos_insufficient hsucc hlt]

/-- Witness for C10: one model, its call succeeds, optimization
requested, balance 1: balance is left at 1 and nothing is debited. -/
theorem C10_settlement_debit_failure_witness :
    (generateImage "" 1 (some cfgPlain) 1 reqOpt (OptimizerOutcome.exn "e")
        outGood 0).balance = 1 ∧
    (generateImage "" 1 (some cfgPlain) 1 reqOpt (OptimizerOutcome.exn "e")
        outGood 0).debits = [] :=
  ⟨(C10_settlement_debit_failure "" cfgPlain 1 reqOpt
      (OptimizerOutcome.exn "e") outGood 0 (by decide) (by decide)).2.2.1,
   (C10_settlement_debit_failure "" cfgPlain 1 reqOpt
      (OptimizerOutcome.exn "e") outGood 0 (by decide) (by decide)).2.2.2⟩

/-- C4, counterexample: the claim's consequence fails on the code as a
whole because `add_points` accepts negative amounts.  Starting from the
non-negative balance 0, the single ledger operation `credit (-1)` drives
the balance to -1, which is negative. -/
theorem C4_counterexample :
    applyOps 0 [LedgerOp.credit (-1)] < 0 := by decide

/-- C4, amended: `deduct_points` fails with the insufficient-points
error exactly when the balance is below the amount, leaving the balance
unchanged, and otherwise decrements by exactly the amount; and every
sequence of ledger operations starting from a non-negative balance keeps
the balance non-negative, provided every credit amount in the sequence
is non-negative (the code does not reject negative credit amounts, so
this proviso is needed). -/
theorem C4_debit_contract (balance amount : Int) (ops : List LedgerOp)
    (hb : 0 ≤ balance)
    (hc : ∀ a, LedgerOp.credit a ∈ ops → 0 ≤ a) :
    (balance < amount →
      deductPoints balance amount = Except.error "Insufficient points" ∧
      applyOp balance (LedgerOp.debit amount) = balance) ∧
    (¬ balance < amount →
      deductPoints balance amount = Except.ok (balance - amount)) ∧
    0 ≤ applyOps balance ops := by
  refine ⟨fun h => ⟨?_, ?_⟩, fun h => ?_, applyOps_nonneg hb hc⟩
  · simp [deductPoints, h]
  · simp [applyOp, deductPoints, h]
  · simp [deductPoints, h]

/-- Witness for C4's amended theorem at balance 3, amount 5, and the
operation sequence `[debit 2, credit 4, debit 5]`. -/
theorem C4_debit_contract_witness :
    deductPoints 3 5 = Except.error "Insufficient points" ∧
    0 ≤ applyOps 3 [LedgerOp.debit 2, LedgerOp.credit 4, LedgerOp.debit 5] :=
  ⟨(C4_debit_contract 3 5 [] (by decide) (by simp)).1 (by decide) |>.1,
   (C4_debit_contract 3 5 [LedgerOp.debit 2, LedgerOp.credit 4,
      LedgerOp.debit 5] (by decide)
      (by intro a ha; simp at ha; omega)).2.2⟩

/-- C5: with balance below 1, or with no active config, `generate_image`
raises the corresponding HTTP error before anything happens: no record
is created, the balance is untouched, nothing is debited, and no
external call (optimizer or provider) is made. -/
theorem C5_precondition_no_side_effects (dk : String) (balance : Int)
    (cfg : Option ApiConfig) (uid : Nat) (req : GenerationRequest)
    (oo : OptimizerOutcome) (outs : Nat → HttpOutcome) (now : Nat)
    (h : balance < 1 ∨ cfg = none) :
    (generateImage dk balance cfg uid req oo outs now).error.isSome ∧
    (generateImage dk balance cfg uid req oo outs now).records = [] ∧
    (generateImage dk balance cfg uid req oo outs now).balance = balance ∧
    (generateImage dk balance cfg uid req oo outs now).debits = [] ∧
    (generateImage dk balance cfg uid req oo outs now).optimizerCalled
      = false ∧
    (generateImage dk balance cfg uid req oo outs now).providerCalls = 0 ∧
    (balance < 1 →
      (generateImage dk balance cfg uid req oo outs now).error
        = some ⟨400, "积分不足"⟩) ∧
    (¬ balance < 1 → cfg = none →
      (generateImage dk balance cfg uid req oo outs now).error
        = some ⟨500, "系统API配置未设置，请联系管理员"⟩) := by
  by_cases hb : balance < 1
  · simp [generateImage, hb]
  · rcases h with h | h
    · exact absurd h hb
    · subst h
      simp [generateImage, hb]

/-- Witness for C5 with balance 0. -/
theorem C5_precondition_no_side_effects_witness :
    (generateImage "" 0 (some cfgPlain) 1 reqNoOpt (OptimizerOutcome.exn "e")
        outBad 0).records = [] ∧
    (generateImage "" 0 (some cfgPlain) 1 reqNoOpt (OptimizerOutcome.exn "e")
        outBad 0).error = some ⟨400, "积分不足"⟩ :=
  ⟨(C5_precondition_no_side_effects "" 0 (some cfgPlain) 1 reqNoOpt
      (OptimizerOutcome.exn "e") outBad 0 (Or.inl (by decide))).2.1,
   (C5_precondition_no_side_effects "" 0 (some cfgPlain) 1 reqNoOpt
      (OptimizerOutcome.exn "e") outBad 0 (Or.inl (by decide))).2.2.2.2.2.2.1
      (by decide)⟩

/-- C7, counterexample: `add_points` does not reject a negative amount;
called with amount -3 on balance 5 it mutates the balance to 2. -/
theorem C7_counterexample :
    addPoints 5 (-3) = 2 ∧ addPoints 5 (-3) ≠ 5 := by decide

/-- C7, amended: `add_points` increments the balance by exactly the
given amount for every amount, including negative ones; a negative
amount is not rejected and does mutate the balance. -/
theorem C7_credit_contract (b a : Int) :
    addPoints b a = b + a ∧ (a < 0 → addPoints b a ≠ b) := by
  refine ⟨rfl, fun h => ?_⟩
  simp only [addPoints]
  omega

/-- Witness for C7's amended theorem at balance 4 and amount -1. -/
theorem C7_credit_contract_witness : addPoints 4 (-1) ≠ 4 :=
  (C7_credit_contract 4 (-1)).2 (by decide)

end AIPainter
